import Mathlib

/-!
# Verification of the Moes-IPA-Mirror bulk downloader core

Shallow embedding of the scraper/downloader variants of the repository
(`src/scrape.js` and the unnamed variants `part_000`..`part_003`), together
with theorems settling the frozen claims C1..C10.

Conventions of the embedding:
* JS strings are Lean `String`s; the regex fragments used by the code are
  embedded as explicit scanners over `List Char` that follow the JS engine's
  leftmost-match discipline for these particular patterns.
* JS numbers (always nonnegative here) are modelled as exact fractions of
  naturals; `NaN` is modelled by `Option` (`none` is `NaN`).  The claims
  proved about them only concern signs, zeroness and integer results, which
  the exact-versus-double difference does not affect.
* The filesystem seen by one download job is just the file at that job's
  destination path, modelled as `Option Nat` (`some n` = the file exists with
  size `n` bytes; `none` = no file).
* The network is a deterministic oracle `Nat → String → Resp`: the response
  returned to the `i`-th HTTP request of the job, given the requested URL.
  The number of issued requests is threaded through the model and reported
  in the result.
-/

namespace Moes

/-- Character class `[a-zA-Z0-9_-]`, the id/token class used by the Google
Drive patterns in `googleDriveDirectLink` and the confirm regexes of
`src/scrape.js`. -/
def isIdChar (c : Char) : Bool :=
  c.isAlpha || c.isDigit || c = '_' || c = '-'

/-- Character class `[0-9A-Za-z_]` (no dash), the confirm-token class of the
`confirm=([0-9A-Za-z_]+)&amp;id=` regex in `part_001`/`part_002`. -/
def isTokChar (c : Char) : Bool :=
  c.isAlpha || c.isDigit || c = '_'

/-- Does `pat` occur contiguously inside `l`? -/
def isSubList (pat : List Char) : List Char → Bool
  | [] => pat.isEmpty
  | c :: rest => pat.isPrefixOf (c :: rest) || isSubList pat rest

/-- JS `String.prototype.includes`. -/
def substrOf (needle hay : String) : Bool :=
  isSubList needle.toList hay.toList

/-- Leftmost occurrence of the literal `pat` followed by a maximal run of
`good` characters of length at least `minLen`; returns the captured run.
This is the JS leftmost-match semantics of regexes of the form
`pat([c]{minLen,})`: at every start position the engine tries the literal,
then the greedy character run; a failed position advances the start by one
character.  (Backtracking inside the run never helps these patterns because
a shorter run ends on a `good` character, which cannot begin the empty
suffix that follows the capture.) -/
def findLitRun (pat : List Char) (good : Char → Bool) (minLen : Nat) :
    List Char → Option (List Char)
  | [] => none
  | c :: rest =>
    if pat.isPrefixOf (c :: rest) then
      let run := ((c :: rest).drop pat.length).takeWhile good
      if minLen ≤ run.length then some run
      else findLitRun pat good minLen rest
    else findLitRun pat good minLen rest

/-- Leftmost maximal run of `good` characters of length at least `minLen`
(the permissive fallback pattern `[-\w]{25,}` instantiates this). -/
def findRun (good : Char → Bool) (minLen : Nat) :
    List Char → Option (List Char)
  | [] => none
  | c :: rest =>
    if good c then
      let run := (c :: rest).takeWhile good
      if minLen ≤ run.length then some run
      else findRun good minLen rest
    else findRun good minLen rest

/-- Leftmost occurrence of literal `pre`, then a nonempty maximal run of
`good` characters, then literal `suf`; returns the captured run.  This is
the shape of the confirm-token regexes, e.g.
`confirm=([0-9A-Za-z_]+)&amp;id=` (here `good` excludes `&`, so the greedy
run needs no backtracking: it always stops right before a possible `&`). -/
def findTokenBetween (pre suf : List Char) (good : Char → Bool) :
    List Char → Option (List Char)
  | [] => none
  | c :: rest =>
    if pre.isPrefixOf (c :: rest) then
      let after := (c :: rest).drop pre.length
      let run := after.takeWhile good
      if run.length ≠ 0 && suf.isPrefixOf (after.drop run.length) then some run
      else findTokenBetween pre suf good rest
    else findTokenBetween pre suf good rest

/-- First-occurrence string replacement: JS `String.prototype.replace` with a
string pattern replaces only the leftmost occurrence. -/
def replaceFirstAux (pat repl : List Char) : List Char → List Char
  | [] => []
  | c :: rest =>
    if pat.isPrefixOf (c :: rest) then repl ++ (c :: rest).drop pat.length
    else c :: replaceFirstAux pat repl rest

def replaceFirst (s pat repl : String) : String :=
  (replaceFirstAux pat.toList repl.toList s.toList).asString

/-- Global string replacement: JS `.replace(/pat/g, repl)` for a literal
pattern (used by `decodeHtmlEntities`). -/
def replaceAllAux (pat repl : List Char) : List Char → List Char
  | [] => []
  | c :: rest =>
    if h : pat.isPrefixOf (c :: rest) ∧ pat ≠ [] then
      repl ++ replaceAllAux pat repl ((c :: rest).drop pat.length)
    else
      c :: replaceAllAux pat repl rest
  termination_by l => l.length
  decreasing_by
    · simp only [List.length_drop, List.length_cons]
      have hlen : 0 < pat.length := List.length_pos.mpr h.2
      omega
    · simp

/-! ## sizeToBytes (src/scrape.js lines 17-29, also part_001/002/003)

```js
function sizeToBytes(sizeStr) {
  if (!sizeStr) return 0;
  const match = sizeStr.trim().match(/([\d.]+)\s*(MB|GB|KB)/i);
  if (!match) return 0;
  const value = parseFloat(match[1]);
  const unit = match[2].toUpperCase();
  switch (unit) {
    case "GB": return Math.round(value * 1024 * 1024 * 1024);
    case "MB": return Math.round(value * 1024 * 1024);
    case "KB": return Math.round(value * 1024);
    default: return 0;
  }
}
```
JS numbers are modelled as exact fractions of naturals; `NaN` (which
`parseFloat` produces on a digit-free numeral such as `"."`, and which
propagates through `*` and `Math.round`) is modelled by `none`. -/

/-- The character class `[\d.]`. -/
def isDigitDot (c : Char) : Bool := c.isDigit || c = '.'

/-- The ASCII part of the JS `\s` class (none of the verified inputs
contain non-ASCII whitespace). -/
def isJsSpace (c : Char) : Bool :=
  c = ' ' || c = '\t' || c = '\n' || c = '\r' || c = '\x0b' || c = '\x0c'

/-- JS `String.prototype.trim`. -/
def jsTrim (l : List Char) : List Char :=
  ((l.dropWhile isJsSpace).reverse.dropWhile isJsSpace).reverse

/-- Numeric value of a digit string (most significant first). -/
def digitsNat (l : List Char) : Nat :=
  l.foldl (fun acc c => acc * 10 + (c.toNat - '0'.toNat)) 0

/-- JS `parseFloat` restricted to strings of digits and dots (the only
strings the code feeds it, since they are captured by `[\d.]+`): longest
valid prefix `digits ['.' digits]`; `NaN` (`none`) when no digit is
consumed.  The (always nonnegative) value is returned as an exact fraction
`(numerator, denominator)` with denominator `10 ^ |fractional part|`. -/
def parseFloatDD (l : List Char) : Option (Nat × Nat) :=
  match l.drop (l.takeWhile Char.isDigit).length with
  | '.' :: r2 =>
    if (l.takeWhile Char.isDigit).isEmpty && (r2.takeWhile Char.isDigit).isEmpty
    then none
    else
      some
        (digitsNat (l.takeWhile Char.isDigit) * 10 ^ (r2.takeWhile Char.isDigit).length
            + digitsNat (r2.takeWhile Char.isDigit),
          10 ^ (r2.takeWhile Char.isDigit).length)
  | _ =>
    if (l.takeWhile Char.isDigit).isEmpty then none
    else some (digitsNat (l.takeWhile Char.isDigit), 1)

/-- JS `Math.round` (half-up) of the nonnegative fraction `num / den`,
computed without rational arithmetic:
`round(num/den) = floor(num/den + 1/2) = (2*num + den) / (2*den)`
in natural-number division.  `jsRoundPos_eq_floor` below checks this
against Mathlib's `⌊·⌋`. -/
def jsRoundPos (num den : Nat) : Nat := (2 * num + den) / (2 * den)

lemma jsRoundPos_eq_floor (num den : Nat) (h : den ≠ 0) :
    (jsRoundPos num den : ℤ) = ⌊(num : ℚ) / den + 1 / 2⌋ := by
  have hd : (den : ℚ) ≠ 0 := Nat.cast_ne_zero.mpr h
  have key : (num : ℚ) / den + 1 / 2 = ((2 * num + den : ℕ) : ℤ) / ((2 * den : ℕ) : ℚ) := by
    push_cast
    field_simp
    ring
  rw [key, Rat.floor_intCast_div_natCast]
  unfold jsRoundPos
  exact_mod_cast Int.ofNat_ediv (2 * num + den) (2 * den)

inductive SizeUnit | kb | mb | gb
deriving DecidableEq, Repr

def unitMult : SizeUnit → Nat
  | .kb => 1024
  | .mb => 1024 * 1024
  | .gb => 1024 * 1024 * 1024

/-- Case-insensitive match of `MB|GB|KB` at the head of `l`. -/
def unitAt (l : List Char) : Option SizeUnit :=
  match l with
  | a :: b :: _ =>
    if b.toLower = 'b' then
      if a.toLower = 'm' then some .mb
      else if a.toLower = 'g' then some .gb
      else if a.toLower = 'k' then some .kb
      else none
    else none
  | _ => none

/-- Leftmost match of `([\d.]+)\s*(MB|GB|KB)` (case-insensitive), returning
the captured numeral and unit.  The greedy runs need no backtracking: the
character after a maximal `[\d.]+` run is not a digit or dot, so a shorter
capture can never let `\s*(MB|GB|KB)` succeed, and similarly for `\s*`. -/
def sizeMatchAux : List Char → Option (List Char × SizeUnit)
  | [] => none
  | c :: rest =>
    if isDigitDot c then
      let run := (c :: rest).takeWhile isDigitDot
      let after := ((c :: rest).drop run.length).dropWhile isJsSpace
      match unitAt after with
      | some u => some (run, u)
      | none => sizeMatchAux rest
    else sizeMatchAux rest

/-- The result of the regex match inside `sizeToBytes` (`none` = the JS
match is `null`). -/
def sizeMatch (s : String) : Option (List Char × SizeUnit) :=
  sizeMatchAux (jsTrim s.toList)

/-- The `switch` on the captured unit: `Math.round(value * multiplier)`
with `value = num / den`.  `none` models a `NaN` value (from a digit-free
numeral) propagating through `*` and `Math.round`. -/
def sizeFromMatch : Option (List Char × SizeUnit) → Option ℤ
  | none => some 0
  | some (run, u) =>
    match parseFloatDD run with
    | none => none
    | some (num, den) => some ((jsRoundPos (num * unitMult u) den : ℤ))

/-- Function `sizeToBytes` from `src/scrape.js`.  `none` models a `NaN` return. -/
def sizeToBytes (s : String) : Option ℤ :=
  if s = "" then some 0 else sizeFromMatch (sizeMatch s)

lemma sizeFromMatch_nonneg {o : Option (List Char × SizeUnit)} {z : ℤ}
    (h : sizeFromMatch o = some z) : 0 ≤ z := by
  match o with
  | none =>
    simp only [sizeFromMatch, Option.some.injEq] at h
    omega
  | some (run, u) =>
    simp only [sizeFromMatch] at h
    cases hp : parseFloatDD run with
    | none => rw [hp] at h; exact absurd h (by simp)
    | some p =>
      obtain ⟨num, den⟩ := p
      rw [hp] at h
      simp only [Option.some.injEq] at h
      omega

/-! ## Link Canonicalizer (src/scrape.js lines 209-238)

```js
function googleDriveDirectLink(url) {
  if (!url || typeof url !== "string") return url;
  try {
    const decoded = decodeURIComponent(url);
    const patterns = [
      /\/file\/d\/([a-zA-Z0-9_-]{10,})/,
      /id=([a-zA-Z0-9_-]{10,})/,
      /\/d\/([a-zA-Z0-9_-]{10,})/,
      /open\?id=([a-zA-Z0-9_-]{10,})/,
      /\/uc\?id=([a-zA-Z0-9_-]{10,})/,
      /\/drive\/folders\/([a-zA-Z0-9_-]{10,})/
    ];
    for (const rx of patterns) {
      const m = decoded.match(rx);
      if (m && m[1]) return `https:\x2f\x2fdocs.google.com\x2fuc?export=download&id=` + m[1];
    }
    const alt = decoded.match(/[-\w]{25,}/);
    if (alt && alt[0]) return `https:\x2f\x2fdocs.google.com\x2fuc?export=download&id=` + alt[0];
    return url;
  } catch (e) { return url; }
}
```
-/

def hexVal (c : Char) : Option Nat :=
  if c.isDigit then some (c.toNat - '0'.toNat)
  else if 'a' ≤ c ∧ c ≤ 'f' then some (c.toNat - 'a'.toNat + 10)
  else if 'A' ≤ c ∧ c ≤ 'F' then some (c.toNat - 'A'.toNat + 10)
  else none

/-- JS `decodeURIComponent`: `%XY` with two hex digits decodes to the byte
`0xXY`, a `%` not followed by two hex digits throws `URIError` (modelled by
`none`, which the caller's `catch` turns into the original url).  The model
decodes each escaped byte to the Unicode scalar of the same value, which
agrees with JS for ASCII escapes; no input exercised by the claims contains
any `%` at all. -/
def percentDecode : List Char → Option (List Char)
  | [] => some []
  | '%' :: a :: b :: rest =>
    match hexVal a, hexVal b with
    | some ha, some hb => (percentDecode rest).map (Char.ofNat (ha * 16 + hb) :: ·)
    | _, _ => none
  | '%' :: _ => none
  | c :: rest => (percentDecode rest).map (c :: ·)

/-- The six ordered extraction patterns of `googleDriveDirectLink`, applied
to the decoded url; the first match wins. -/
def firstPatternId (l : List Char) : Option (List Char) :=
  (findLitRun "/file/d/".toList isIdChar 10 l).orElse fun _ =>
  (findLitRun "id=".toList isIdChar 10 l).orElse fun _ =>
  (findLitRun "/d/".toList isIdChar 10 l).orElse fun _ =>
  (findLitRun "open?id=".toList isIdChar 10 l).orElse fun _ =>
  (findLitRun "/uc?id=".toList isIdChar 10 l).orElse fun _ =>
  findLitRun "/drive/folders/".toList isIdChar 10 l

/-- The complete id extraction including the permissive `[-\w]{25,}`
fallback (`\w` and the id class coincide once `-` is added). -/
def matchedId (s : String) : Option String :=
  match percentDecode s.toList with
  | none => none
  | some decoded =>
    match (firstPatternId decoded).orElse fun _ => findRun isIdChar 25 decoded with
    | some id => some id.asString
    | none => none

/-- Function `googleDriveDirectLink` from `src/scrape.js` (the variant with the
pattern list and the long-opaque-token fallback). -/
def googleDriveDirectLink (url : String) : String :=
  if url = "" then url
  else
    match matchedId url with
    | some id => "https://docs.google.com/uc?export=download&id=" ++ id
    | none => url

/-! ## Destination paths (src/scrape.js lines 423-424)

```js
const safeName = name.replace(/[^a-z0-9\-_.]/gi, "_");
const ipaPath = path.join(IPA_DIR, `$\x7bsafeName\x7d.ipa`);
```
`IPA_DIR` is modelled as the constant directory prefix `ipas/`. -/

/-- The sanitizer's character class `[a-z0-9\-_.]` (with the `i` flag). -/
def isSafeChar (c : Char) : Bool :=
  c.isAlpha || c.isDigit || c = '-' || c = '_' || c = '.'

def safeName (name : String) : String :=
  (name.toList.map fun c => if isSafeChar c then c else '_').asString

def ipaPath (name : String) : String :=
  "ipas/" ++ safeName name ++ ".ipa"

/-! ## parallelLimit (src/scrape.js lines 365-385, part_002 lines 121-137)

```js
async function parallelLimit(items, limit, fn) {
  const results = [];
  const executing = [];
  for (const item of items) {
    const p = fn(item);
    results.push(p);
    executing.push(p);
    if (executing.length >= limit) {
      await Promise.race(executing).catch(() => \x7b\x7d);
      executing.splice(executing.findIndex(e => e === p), 1);
    }
  }
  return Promise.all(results);
}
```

Timed model.  Job `i` is abstracted by a duration `dᵢ`: once started at
time `t`, its promise settles (fulfills or rejects — the `.catch` swallows
rejections) at time `t + dᵢ`.  The loop body is synchronous except for the
`await Promise.race(executing)`, which resumes at
`max clock (min of the settle times in executing)` (immediately if some
tracked promise has already settled).  `findIndex(e => e === p)` locates the
promise `p` pushed in this very iteration — promises are distinct objects
and `p` was appended last — so the splice removes the LAST element of
`executing`, not the settled one.  (The `isFulfilled`/`isRejected` scan of
the scrape.js variant removes nothing: native promises have no such
properties.) -/

/-- Resolution time of `Promise.race` over tracked settle times. -/
def raceTime : List Nat → Nat
  | [] => 0
  | x :: xs => xs.foldl min x

structure SchedState where
  clock : Nat
  executing : List Nat
  startsRev : List Nat

/-- One pass of the `for (const item of items)` loop. -/
def parallelLimitGo (limit : Nat) : List Nat → SchedState → List Nat
  | [], st => st.startsRev.reverse
  | d :: rest, st =>
    let executing := st.executing ++ [st.clock + d]
    let startsRev := st.clock :: st.startsRev
    if limit ≤ executing.length then
      parallelLimitGo limit rest
        ⟨max st.clock (raceTime executing), executing.dropLast, startsRev⟩
    else
      parallelLimitGo limit rest ⟨st.clock, executing, startsRev⟩

/-- Start time of every job when `parallelLimit` runs jobs with the given
durations under the given concurrency limit. -/
def parallelLimitStarts (durations : List Nat) (limit : Nat) : List Nat :=
  parallelLimitGo limit durations ⟨0, [], []⟩

/-- Number of download operations in flight at time `t`: jobs started at
`s` with duration `d` occupy the interval `[s, s + d)`. -/
def inFlightAt (durations starts : List Nat) (t : Nat) : Nat :=
  ((starts.zip durations).filter fun p => p.1 ≤ t && t < p.1 + p.2).length

/-! ## Outcome aggregation (src/scrape.js lines 430-449, part_000)

Per job, the scheduler's callback runs
```js
try { await downloadGDrive(app.downloadURL, app.ipaPath); apps.push(app); }
catch (err) { failedDownloads.push(\x7b ... \x7d); }
```
exactly once (`parallelLimit` keeps every promise in `results` and
`Promise.all` awaits them all; the callback catches every error, so none
rejects).  Each completion appends its job to exactly one of the two
arrays, in completion order.  `aggregate order ok` is the pair of arrays
produced when the jobs complete in the order `order` (any permutation of
the input; concatenating per-batch completion orders is again a
permutation) with `ok j` telling whether job `j`'s download succeeded. -/

def aggregate {α : Type} (order : List α) (ok : α → Bool) : List α × List α :=
  (order.filter ok, order.filter fun j => !(ok j))

/-! ## The Resilient Fetcher models

Shared modelling of one HTTP response.  `contentType`/`contentDisposition`/
`location` model the respective headers (`""` = header absent), `body` the
buffered text of an HTML response, and `streamBytes`/`streamOk` the
behaviour of the payload stream when piped to disk: `streamBytes` bytes
reach the file, and the stream finishes cleanly iff `streamOk` (otherwise
it errors after those bytes). -/

structure Resp where
  status : Nat
  contentType : String
  contentDisposition : String
  location : String
  body : String
  streamBytes : Nat
  streamOk : Bool
deriving DecidableEq, Repr

/-- The network oracle: the response to the `i`-th request a job issues,
given the requested URL. -/
def Provider : Type := Nat → String → Resp

/-- Bookkeeping threaded through a download: requests issued so far, outer
attempts begun so far, and the file at the job's destination path
(`some n` = exists with `n` bytes). -/
structure DlState where
  calls : Nat
  attempts : Nat
  file : Option Nat
deriving DecidableEq, Repr

/-- Terminal result of a download function.  `spin` is the fuel-exhaustion
marker of the loop models: it means the code was *still looping* after the
given number of hops, never a result of the code itself. -/
inductive LoopOut
  | skipped
  | success
  | failure (msg : String)
  | spin
deriving DecidableEq, Repr

/-- JS `String.prototype.toLowerCase` (ASCII). -/
def strLower (s : String) : String := (s.toList.map Char.toLower).asString

/-- The regex `[?&]id=([0-9A-Za-z_-]+)`: leftmost `?` or `&` followed by
`id=` and a nonempty greedy run of id characters. -/
def extractIdAux : List Char → Option (List Char)
  | [] => none
  | c :: rest =>
    if (c = '?' || c = '&') && "id=".toList.isPrefixOf rest
        && !((rest.drop 3).takeWhile isIdChar).isEmpty then
      some ((rest.drop 3).takeWhile isIdChar)
    else extractIdAux rest

def extractId (s : String) : Option String :=
  (extractIdAux s.toList).map List.asString

/-! ### downloadFile (src/unnamed/part_002 lines 49-118)

```js
async function downloadFile(url, targetPath) {
  if (fs.existsSync(targetPath) && fs.statSync(targetPath).size > 0) { ... return; }
  for (let attempt = 1; attempt <= MAX_RETRIES; attempt++) {
    try {
      let finalUrl = url;
      while (true) {
        const response = await axios(\x7b url: finalUrl, responseType: "stream",
          maxRedirects: 10, validateStatus: (status) => true \x7d);
        if (response.status === 200 && response.headers["content-type"]?.includes("text/html")) {
          let body = ""; for await (const chunk of response.data) body += chunk;
          const confirmMatch = body.match(/confirm=([0-9A-Za-z_]+)&amp;id=/);
          if (confirmMatch) {
            finalUrl = finalUrl.replace("export=download",
              `export=download&confirm=$\x7bconfirmMatch[1]\x7d`);
            continue;
          } else if (body.includes("quota exceeded")) {
            throw new Error("Google Drive quota exceeded");
          } else { throw new Error(`Unexpected HTML response for $\x7bfinalUrl\x7d`); }
        }
        if ([301,302,303,307,308].includes(response.status)) {
          const redirectUrl = response.headers.location;
          if (!redirectUrl) throw new Error(`Redirect with no location`);
          finalUrl = redirectUrl; continue;
        }
        if (response.status !== 200) throw new Error(`HTTP $\x7bresponse.status\x7d`);
        await new Promise((resolve, reject) => \x7b
          const file = fs.createWriteStream(targetPath);
          response.data.pipe(file);
          file.on("finish", () => file.close(resolve));
          file.on("error", (err) => \x7b fs.unlink(targetPath, () => \x7b\x7d); reject(err); \x7d);
        \x7d);
        return;
      }
    } catch (err) { if (attempt === MAX_RETRIES) throw err; }
  }
}
```
The `while (true)` has no bound in the source; `innerLoop` carries fuel
only so that it is definable — `.spin` reports that the code was still
looping when the fuel ran out.  (The `axios-retry` wrapper only retries
transport errors and 5xx responses; the responses used in the theorems are
all `200`, so it is the identity there.) -/

/-- The `confirm=([0-9A-Za-z_]+)&amp;id=` match of part_001/part_002
(token class without dash). -/
def confirmMatchAmpId (body : String) : Option String :=
  (findTokenBetween "confirm=".toList "&amp;id=".toList isTokChar body.toList).map
    List.asString

/-- The `while (true)` confirmation/redirect loop of one attempt. -/
def innerLoop (provider : Provider) : Nat → String → DlState → LoopOut × DlState
  | 0, _, st => (.spin, st)
  | fuel + 1, url, st =>
    let r := provider st.calls url
    let st1 : DlState := { st with calls := st.calls + 1 }
    if r.status = 200 && substrOf "text/html" r.contentType then
      match confirmMatchAmpId r.body with
      | some tok =>
        innerLoop provider fuel
          (replaceFirst url "export=download" ("export=download&confirm=" ++ tok)) st1
      | none =>
        if substrOf "quota exceeded" r.body then
          (.failure "Google Drive quota exceeded", st1)
        else (.failure ("Unexpected HTML response for " ++ url), st1)
    else if r.status = 301 || r.status = 302 || r.status = 303 ||
        r.status = 307 || r.status = 308 then
      if r.location = "" then (.failure "Redirect with no location", st1)
      else innerLoop provider fuel r.location st1
    else if r.status ≠ 200 then (.failure ("HTTP " ++ toString r.status), st1)
    else if r.streamOk then (.success, { st1 with file := some r.streamBytes })
    else (.failure "stream error", { st1 with file := none })

/-- The `for (attempt = 1; attempt <= MAX_RETRIES; ...)` loop, with
`remaining` attempts left (`remaining = 1` is `attempt === MAX_RETRIES`). -/
def attemptLoop (provider : Provider) (fuel : Nat) (url : String) :
    Nat → DlState → LoopOut × DlState
  | 0, st => (.failure "no attempts", st)
  | remaining + 1, st =>
    match innerLoop provider fuel url { st with attempts := st.attempts + 1 } with
    | (.failure e, st2) =>
      if remaining = 0 then (.failure e, st2)
      else attemptLoop provider fuel url remaining st2
    | out => out

/-- Function `downloadFile` from part_002 (`MAX_RETRIES = 3`). -/
def downloadFile (provider : Provider) (fuel : Nat) (url : String)
    (file0 : Option Nat) : LoopOut × DlState :=
  if (match file0 with | some n => decide (0 < n) | none => false) then
    (.skipped, ⟨0, 0, file0⟩)
  else attemptLoop provider fuel url 3 ⟨0, 0, file0⟩

/-! ### downloadGDrive (src/scrape.js lines 248-348)

One attempt issues the initial GET on the normalized URL (axios with the
default `validateStatus` rejects on non-2xx), classifies payload versus
HTML interstitial by the `content-disposition` header or a non-HTML content
type, and streams payload to disk, checking afterwards that the file is
non-empty.  On an interstitial it buffers the body and either follows a
`confirm=` token (`confirm=([0-9A-Za-z_-]+)&amp;` or `...&`) combined with
the id extracted from the normalized URL, or follows an
`href="/uc?export=download..."` link; each follow-up issues one more GET
and streams.  All errors are caught per attempt; after `maxAttempts = 3`
the function throws `Failed to download after 3 attempts: <last error>`.
Nothing in the catch deletes a partially streamed file
(`streamPipeline` does not unlink on error). -/

/-- The two confirm-token regexes of `downloadGDrive`, in order:
`confirm=([0-9A-Za-z_-]+)&amp;` first, then `confirm=([0-9A-Za-z_-]+)&`. -/
def confirmTokenScrape (body : String) : Option String :=
  ((findTokenBetween "confirm=".toList "&amp;".toList isIdChar body.toList).orElse
    fun _ => findTokenBetween "confirm=".toList "&".toList isIdChar body.toList).map
    List.asString

/-- The `href="(\/uc\?export=download[^"]+)"` match: the capture is the
literal `/uc?export=download` plus a nonempty greedy run of non-quote
characters that must be followed by the closing quote. -/
def findHrefAux : List Char → Option (List Char)
  | [] => none
  | c :: rest =>
    if ("href=".toList ++ ['"']).isPrefixOf (c :: rest) then
      if "/uc?export=download".toList.isPrefixOf ((c :: rest).drop 6) then
        if !(((c :: rest).drop 25).takeWhile (fun x => x ≠ '"')).isEmpty &&
            !(((c :: rest).drop 25).dropWhile (fun x => x ≠ '"')).isEmpty then
          some ("/uc?export=download".toList ++
            ((c :: rest).drop 25).takeWhile (fun x => x ≠ '"'))
        else findHrefAux rest
      else findHrefAux rest
    else findHrefAux rest

def findHref (body : String) : Option String :=
  (findHrefAux body.toList).map List.asString

/-- Piping a payload response to the destination file, followed by the
non-empty sanity check: `streamBytes` bytes land in the (truncated) file;
a clean finish with a non-empty file is success, a clean finish with an
empty file throws `emptyMsg`, and a stream error leaves the partial bytes
in place and throws (modelled by the tag `stream error`). -/
def gStream (r : Resp) (st : DlState) (emptyMsg : String) : LoopOut × DlState :=
  if r.streamOk then
    if 0 < r.streamBytes then (.success, { st with file := some r.streamBytes })
    else (.failure emptyMsg, { st with file := some r.streamBytes })
  else (.failure "stream error", { st with file := some r.streamBytes })

/-- One attempt of `downloadGDrive` (at most two requests). -/
def gAttempt (provider : Provider) (normalized : String) (st : DlState) :
    LoopOut × DlState :=
  let r := provider st.calls normalized
  let st1 : DlState := { st with calls := st.calls + 1 }
  if !(200 ≤ r.status && r.status ≤ 299) then
    (.failure ("Request failed with status code " ++ toString r.status), st1)
  else if r.contentDisposition ≠ "" ||
      (strLower r.contentType ≠ "" && !substrOf "html" (strLower r.contentType)) then
    gStream r st1 "Downloaded file seems empty after streaming"
  else
    match confirmTokenScrape r.body with
    | none =>
      match findHref r.body with
      | some href =>
        let forcedUrl := "https://docs.google.com" ++
          (replaceAllAux "&amp;".toList "&".toList href.toList).asString
        let r2 := provider st1.calls forcedUrl
        let st2 : DlState := { st1 with calls := st1.calls + 1 }
        if !(200 ≤ r2.status && r2.status ≤ 299) then
          (.failure ("Request failed with status code " ++ toString r2.status), st2)
        else gStream r2 st2 "Downloaded file seems empty after second-stream"
      | none =>
        (.failure "Could not find confirm token or download link on Drive page", st1)
    | some tok =>
      match extractId normalized with
      | none => (.failure "Couldn't extract file id for confirm flow", st1)
      | some id =>
        let confirmUrl :=
          "https://docs.google.com/uc?export=download&confirm=" ++ tok ++ "&id=" ++ id
        let r3 := provider st1.calls confirmUrl
        let st2 : DlState := { st1 with calls := st1.calls + 1 }
        if !(200 ≤ r3.status && r3.status ≤ 299) then
          (.failure ("Request failed with status code " ++ toString r3.status), st2)
        else gStream r3 st2 "Downloaded file seems empty after confirm-stream"

/-- The `for (attempt = 1; attempt <= maxAttempts; ...)` loop of
`downloadGDrive`, with the last error message carried for the final
throw. -/
def downloadGDriveGo (provider : Provider) (normalized : String) :
    Nat → String → DlState → LoopOut × DlState
  | 0, lastErr, st =>
    (.failure ("Failed to download after 3 attempts: " ++ lastErr), st)
  | remaining + 1, _, st =>
    match gAttempt provider normalized { st with attempts := st.attempts + 1 } with
    | (.failure e, st2) => downloadGDriveGo provider normalized remaining e st2
    | out => out

/-- Function `downloadGDrive` from `src/scrape.js` (`maxAttempts = 3`): skip check,
URL normalization, then the attempt loop. -/
def downloadGDrive (provider : Provider) (originalUrl : String)
    (file0 : Option Nat) : LoopOut × DlState :=
  if (match file0 with | some n => decide (0 < n) | none => false) then
    (.skipped, ⟨0, 0, file0⟩)
  else
    downloadGDriveGo provider (googleDriveDirectLink originalUrl) 3 "" ⟨0, 0, file0⟩

/-! ### Concrete provider behaviours used in the scenarios -/

/-- A quota-exceeded interstitial: HTTP 200, HTML content type, no confirm
token, body containing the `quota exceeded` marker. -/
def qResp : Resp :=
  { status := 200, contentType := "text/html; charset=utf-8",
    contentDisposition := "", location := "",
    body := "Sorry, you cannot download this file because the download quota exceeded for this file.",
    streamBytes := 0, streamOk := true }

/-- A self-referencing confirm interstitial: HTTP 200, HTML content type,
body containing `confirm=t&amp;id=` — every request gets another one. -/
def confResp : Resp :=
  { status := 200, contentType := "text/html", contentDisposition := "",
    location := "", body := "<a href=x>confirm=t&amp;id=FILE</a>",
    streamBytes := 0, streamOk := true }

/-- A payload response whose stream delivers 100 bytes and then errors
(e.g. connection reset mid-transfer). -/
def badResp : Resp :=
  { status := 200, contentType := "application/octet-stream",
    contentDisposition := "attachment", location := "", body := "",
    streamBytes := 100, streamOk := false }

/-! ### Supporting lemmas for the scanners -/

lemma takeWhile_append_stop {α : Type} {p : α → Bool} {xs ys : List α} {y : α}
    (hxs : ∀ c ∈ xs, p c = true) (hy : p y = false) :
    (xs ++ y :: ys).takeWhile p = xs := by
  induction xs with
  | nil => simp [List.takeWhile, hy]
  | cons a as ih =>
    have ha : p a = true := hxs a (by simp)
    simp only [List.cons_append, List.takeWhile_cons, ha, if_true]
    rw [ih (fun c hc => hxs c (by simp [hc]))]

lemma percentDecode_no_percent {l : List Char} (h : ∀ c ∈ l, c ≠ '%') :
    percentDecode l = some l := by
  induction l with
  | nil => rfl
  | cons c rest ih =>
    have hc : c ≠ '%' := h c (by simp)
    have hr := ih (fun x hx => h x (by simp [hx]))
    simp [percentDecode, hc, hr]

lemma isIdChar_ne_percent {c : Char} (h : isIdChar c = true) : c ≠ '%' := by
  intro he
  subst he
  exact absurd h (by decide)

lemma toList_append (s t : String) : (s ++ t).toList = s.toList ++ t.toList :=
  String.data_append s t

lemma toList_asString (l : List Char) : (l.asString).toList = l := rfl

lemma takeWhile_all {p : Char → Bool} {l : List Char} (h : ∀ c ∈ l, p c = true) :
    l.takeWhile p = l := by
  induction l with
  | nil => rfl
  | cons a as ih =>
    simp only [List.takeWhile_cons, h a (by simp), if_true]
    rw [ih (fun c hc => h c (by simp [hc]))]

lemma isTokChar_not_sep {c : Char} (h : isTokChar c = true) : c ≠ '?' ∧ c ≠ '&' := by
  constructor <;> intro he <;> subst he <;> exact absurd h (by decide)

/-- The `[?&]id=` scanner skips any block of characters containing neither
`?` nor `&`. -/
lemma extractIdAux_skip {l1 l2 : List Char} (h : ∀ c ∈ l1, c ≠ '?' ∧ c ≠ '&') :
    extractIdAux (l1 ++ l2) = extractIdAux l2 := by
  induction l1 with
  | nil => simp
  | cons c rest ih =>
    have hc := h c (by simp)
    simp [extractIdAux, hc.1, hc.2, ih (fun x hx => h x (by simp [hx]))]

lemma extractId_amp (id : List Char) (hne : id ≠ []) (hid : ∀ c ∈ id, isIdChar c = true) :
    extractIdAux ("&id=".toList ++ id) = some id := by
  simp [extractIdAux, List.isPrefixOf, takeWhile_all hid]
  intro hfalse
  exact absurd hfalse hne

/-- Id extraction from the canonical download URL. -/
lemma extractId_canon (id : List Char) (hne : id ≠ []) (hid : ∀ c ∈ id, isIdChar c = true) :
    extractIdAux ("https://drive.google.com/uc?export=download&id=".toList ++ id)
      = some id := by
  rw [show "https://drive.google.com/uc?export=download&id=".toList =
    ['h','t','t','p','s',':','/','/','d','r','i','v','e','.','g','o','o','g','l','e','.',
     'c','o','m','/','u','c','?','e','x','p','o','r','t','=','d','o','w','n','l','o','a',
     'd','&','i','d','='] from rfl]
  simp only [List.cons_append, List.nil_append]
  simp [extractIdAux, List.isPrefixOf, takeWhile_all hid]
  intro hfalse
  exact absurd hfalse hne

/-- Id extraction from the confirm URL: the token block (no `?`/`&` in its
character class) cannot divert the `[?&]id=` match, so the same id is
found. -/
lemma extractId_confirm (tok id : List Char) (hne : id ≠ [])
    (hid : ∀ c ∈ id, isIdChar c = true) (htok : ∀ c ∈ tok, isTokChar c = true) :
    extractIdAux ("https://drive.google.com/uc?export=download&confirm=".toList
        ++ (tok ++ ("&id=".toList ++ id))) = some id := by
  rw [show "https://drive.google.com/uc?export=download&confirm=".toList =
    ['h','t','t','p','s',':','/','/','d','r','i','v','e','.','g','o','o','g','l','e','.',
     'c','o','m','/','u','c','?','e','x','p','o','r','t','=','d','o','w','n','l','o','a',
     'd','&','c','o','n','f','i','r','m','='] from rfl]
  simp only [List.cons_append, List.nil_append]
  simp only [extractIdAux, List.isPrefixOf]
  norm_num
  rw [extractIdAux_skip (fun c hc => isTokChar_not_sep (htok c hc))]
  exact extractId_amp id hne hid

/-- The first `export=download` occurrence in the canonical URL shape is the
one right after `uc?`, so the JS `replace` rewrites exactly there. -/
lemma replaceFirst_export (rest repl : List Char) :
    replaceFirstAux "export=download".toList repl
      ("https://drive.google.com/uc?export=download".toList ++ rest)
      = "https://drive.google.com/uc?".toList ++ (repl ++ rest) := by
  rw [show "https://drive.google.com/uc?export=download".toList =
    ['h','t','t','p','s',':','/','/','d','r','i','v','e','.','g','o','o','g','l','e','.',
     'c','o','m','/','u','c','?','e','x','p','o','r','t','=','d','o','w','n','l','o','a',
     'd'] from rfl]
  simp only [List.cons_append, List.nil_append]
  simp [replaceFirstAux, List.isPrefixOf]

/-- The confirm-hop URL rewrite of part_002 on the canonical URL: the
`confirm` parameter is spliced in after `export=download`, keeping the rest
of the URL — in particular the `id` parameter — intact. -/
lemma replaceFirst_confirm_url (id tok : List Char) :
    replaceFirst ("https://drive.google.com/uc?export=download&id=" ++ id.asString)
        "export=download" ("export=download&confirm=" ++ tok.asString)
      = "https://drive.google.com/uc?export=download&confirm=" ++ tok.asString
          ++ "&id=" ++ id.asString := by
  apply String.ext
  have hs : ("https://drive.google.com/uc?export=download&id=" ++ id.asString).toList
      = "https://drive.google.com/uc?export=download".toList ++ ("&id=".toList ++ id) := by
    rw [show ("https://drive.google.com/uc?export=download&id=" ++ id.asString).toList
        = ("https://drive.google.com/uc?export=download&id=").data ++ (id.asString).data from
        String.data_append _ _]
    rw [show (id.asString).data = id from rfl]
    rw [show ("https://drive.google.com/uc?export=download&id=").data
        = "https://drive.google.com/uc?export=download".toList ++ "&id=".toList from rfl]
    rw [List.append_assoc]
  have hr : ("export=download&confirm=" ++ tok.asString).toList
      = "export=download&confirm=".toList ++ tok := by
    rw [show ("export=download&confirm=" ++ tok.asString).toList
        = ("export=download&confirm=").data ++ (tok.asString).data from String.data_append _ _]
    rw [show (tok.asString).data = tok from rfl]
    rfl
  show replaceFirstAux "export=download".toList
      ("export=download&confirm=" ++ tok.asString).toList
      ("https://drive.google.com/uc?export=download&id=" ++ id.asString).toList
    = _
  rw [hs, hr, replaceFirst_export]
  rw [String.data_append, String.data_append, String.data_append]
  rw [show (tok.asString).data = tok from rfl, show (id.asString).data = id from rfl]
  rw [show ("https://drive.google.com/uc?export=download&confirm=").data
      = "https://drive.google.com/uc?".toList ++ "export=download&confirm=".toList from rfl]
  rw [show ("&id=").data = "&id=".toList from rfl]
  simp [List.append_assoc]

/-- The first extraction pattern fires on any `.../file/d/ID/view` link
whose id is a run of at least ten id-class characters. -/
lemma findLitRun_fileD (id : List Char) (hlen : 10 ≤ id.length)
    (h : ∀ c ∈ id, isIdChar c = true) :
    findLitRun "/file/d/".toList isIdChar 10
      ("https://drive.google.com/file/d/".toList ++ (id ++ "/view".toList)) = some id := by
  have hrun : List.takeWhile isIdChar (id ++ '/' :: "view".toList) = id :=
    takeWhile_append_stop h (by decide)
  rw [show "https://drive.google.com/file/d/".toList =
      ['h','t','t','p','s',':','/','/','d','r','i','v','e','.','g','o','o','g','l','e',
       '.','c','o','m','/','f','i','l','e','/','d','/'] from rfl]
  simp only [List.cons_append, List.nil_append]
  simp [findLitRun, List.isPrefixOf]
  rw [show (id ++ ['/', 'v', 'i', 'e', 'w'] : List Char) = id ++ '/' :: "view".toList
      from rfl] at *
  rw [hrun]
  simp [hlen]

end Moes

open Moes

/-- C10 counterexample: the claim is false as stated.  `sizeToBytes "0 MB"`
returns `0` even though the input is nonempty and a number-plus-unit pattern
IS found (so "returns 0 exactly when empty or no pattern" fails), and
`sizeToBytes ". MB"` returns `NaN` (not a nonnegative integer), because
`parseFloat(".")` is `NaN` and it propagates through `Math.round`. -/
theorem sizeToBytes_claim_false :
    sizeToBytes "0 MB" = some 0 ∧ "0 MB" ≠ "" ∧ sizeMatch "0 MB" ≠ none ∧
      sizeToBytes ". MB" = none := by
  refine ⟨by decide, by decide, by decide, by decide⟩

/-- C10 amended: `sizeToBytes` returns `0` whenever the input is empty or no
number-plus-unit pattern is found (though it can also return `0` for matched
sizes that round to zero, such as `"0 MB"`), and every integer it returns is
nonnegative (on a matched numeral with no digits, such as a bare `"."`, it
returns `NaN` instead of an integer). -/
theorem sizeToBytes_amended (s : String) :
    ((s = "" ∨ sizeMatch s = none) → sizeToBytes s = some 0) ∧
    (∀ z : ℤ, sizeToBytes s = some z → 0 ≤ z) := by
  constructor
  · rintro (rfl | hm)
    · rfl
    · unfold sizeToBytes
      split
      · rfl
      · rw [hm]; rfl
  · intro z hz
    unfold sizeToBytes at hz
    split at hz
    · simp only [Option.some.injEq] at hz
      omega
    · exact sizeFromMatch_nonneg hz

/-- Witness for C10's amended theorem at concrete inputs. -/
theorem sizeToBytes_amended_witness :
    sizeToBytes "not a size" = some 0 ∧ (0 : ℤ) ≤ 262144000 :=
  ⟨(sizeToBytes_amended "not a size").1 (Or.inr (by decide)),
   (sizeToBytes_amended "250 MB").2 262144000 (by decide)⟩

/-- C6 counterexample: the claim is false as stated.  The literal scenario
link `.../file/d/ABC123/view` is returned unchanged (not canonicalized to a
fetch URL embedding `ABC123`), because every extraction pattern requires an
identifier of at least 10 characters and the fallback requires 25, while
`ABC123` has only 6. -/
theorem googleDriveDirectLink_claim_false :
    googleDriveDirectLink "https://drive.google.com/file/d/ABC123/view" =
      "https://drive.google.com/file/d/ABC123/view" ∧
    googleDriveDirectLink "https://drive.google.com/file/d/ABC123/view" ≠
      "https://docs.google.com/uc?export=download&id=ABC123" := by
  exact ⟨by decide, by decide⟩

/-- C6 amended: share links of the shape `.../file/d/ID/view` canonicalize
to the fetch URL embedding `ID` provided `ID` is a run of at least ten
characters of the id class `[a-zA-Z0-9_-]` (real Drive ids are ~33); and
whenever neither the provider patterns nor the permissive long-opaque-token
fallback matches (which includes the 6-character `ABC123` scenario), the
input string is returned unchanged rather than dropped. -/
theorem googleDriveDirectLink_amended :
    (∀ id : List Char, 10 ≤ id.length → (∀ c ∈ id, isIdChar c = true) →
      googleDriveDirectLink
          ("https://drive.google.com/file/d/" ++ id.asString ++ "/view") =
        "https://docs.google.com/uc?export=download&id=" ++ id.asString) ∧
    (∀ s : String, matchedId s = none → googleDriveDirectLink s = s) := by
  constructor
  · intro id hlen hid
    have hdata : ("https://drive.google.com/file/d/" ++ id.asString ++ "/view").data
        = "https://drive.google.com/file/d/".toList ++ (id ++ "/view".toList) := by
      rw [String.data_append, String.data_append]
      rw [show (id.asString).data = id from rfl]
      simp [List.append_assoc]
    have hne : "https://drive.google.com/file/d/" ++ id.asString ++ "/view" ≠ "" := by
      intro h0
      rw [h0] at hdata
      exact absurd hdata.symm (by simp)
    have hnp : ∀ c ∈ "https://drive.google.com/file/d/".toList ++ (id ++ "/view".toList),
        c ≠ '%' := by
      intro c hc
      rcases List.mem_append.mp hc with h1 | h2
      · have hh : ∀ c ∈ "https://drive.google.com/file/d/".toList, c ≠ '%' := by decide
        exact hh c h1
      · rcases List.mem_append.mp h2 with h3 | h4
        · exact isIdChar_ne_percent (hid c h3)
        · have hh : ∀ c ∈ "/view".toList, c ≠ '%' := by decide
          exact hh c h4
    have hf : firstPatternId
        ("https://drive.google.com/file/d/".toList ++ (id ++ "/view".toList)) = some id := by
      unfold firstPatternId
      rw [findLitRun_fileD id hlen hid]
      rfl
    have hpd : percentDecode
          ("https://drive.google.com/file/d/" ++ id.asString ++ "/view").toList
        = some ("https://drive.google.com/file/d/".toList ++ (id ++ "/view".toList)) := by
      rw [show ("https://drive.google.com/file/d/" ++ id.asString ++ "/view").toList
          = "https://drive.google.com/file/d/".toList ++ (id ++ "/view".toList) from hdata]
      exact percentDecode_no_percent hnp
    have hmc : matchedId ("https://drive.google.com/file/d/" ++ id.asString ++ "/view")
        = some id.asString := by
      simp only [matchedId, hpd, hf]
      simp [Option.orElse]
    unfold googleDriveDirectLink
    rw [if_neg hne, hmc]
  · intro s hm
    unfold googleDriveDirectLink
    split
    · rfl
    · rw [hm]

/-- Witness for C6's amended theorem at a 10-character identifier and at a
patternless string. -/
theorem googleDriveDirectLink_amended_witness :
    googleDriveDirectLink "https://drive.google.com/file/d/abcdefghij/view" =
      "https://docs.google.com/uc?export=download&id=abcdefghij" ∧
    googleDriveDirectLink "hello" = "hello" :=
  ⟨googleDriveDirectLink_amended.1 "abcdefghij".toList (by decide) (by decide),
   googleDriveDirectLink_amended.2 "hello" (by decide)⟩

/-- C9 counterexample: the claim is false as stated.  The two distinct
artifact names `A!` and `A?` sanitize to the same `A_`, so two distinct jobs
derive the same destination path. -/
theorem ipaPath_claim_false :
    ipaPath "A!" = ipaPath "A?" ∧ "A!" ≠ "A?" := by
  exact ⟨by decide, by decide⟩

/-- C9 amended: destination paths are distinct exactly as far as the
sanitized names are: whenever two jobs' sanitized artifact names differ,
their derived destination paths differ.  (The sanitizer is not injective,
so distinct raw names — e.g. names differing only in disallowed
characters — can still collide.) -/
theorem ipaPath_amended (n1 n2 : String) (h : safeName n1 ≠ safeName n2) :
    ipaPath n1 ≠ ipaPath n2 := by
  intro heq
  apply h
  unfold ipaPath at heq
  have hdata := congrArg String.data heq
  rw [String.data_append, String.data_append, String.data_append,
    String.data_append, List.append_assoc, List.append_assoc] at hdata
  have h2 := List.append_cancel_left hdata
  exact String.ext (List.append_cancel_right h2)

/-- Witness for C9's amended theorem at two names with distinct sanitized
forms. -/
theorem ipaPath_amended_witness : ipaPath "AppOne" ≠ ipaPath "AppTwo" :=
  ipaPath_amended "AppOne" "AppTwo" (by decide)
/-- C4: the claim fails on the code; evaluation of the scheduler model at
the failing input.  Four jobs with durations `[0, 10, 10, 10]` under
concurrency limit `2`: the first job settles immediately, the race's
`splice` then removes the *newest* promise instead of the settled one, so
the already-settled promise stays in `executing` and every later race
resolves instantly — all four jobs start at time `0` and three are in
flight simultaneously at time `1`, exceeding the limit of 2. -/
theorem parallelLimit_bound_violated :
    parallelLimitStarts [0, 10, 10, 10] 2 = [0, 0, 0, 0] ∧
    2 < inFlightAt [0, 10, 10, 10] (parallelLimitStarts [0, 10, 10, 10] 2) 1 := by
  exact ⟨by decide, by decide⟩

/-- C8: once scheduling finishes, every input job is in exactly one of the
two result sets: the two arrays together are a permutation of the input job
list (each job exactly once, by count), and no job is in both — regardless
of the completion order. -/
theorem scrape_partition {α : Type} [DecidableEq α] (jobs order : List α)
    (ok : α → Bool) (h : order.Perm jobs) :
    ((aggregate order ok).1 ++ (aggregate order ok).2).Perm jobs ∧
    (∀ j, ((aggregate order ok).1 ++ (aggregate order ok).2).count j = jobs.count j) ∧
    (∀ j, j ∈ (aggregate order ok).1 → j ∉ (aggregate order ok).2) := by
  have hperm : ((aggregate order ok).1 ++ (aggregate order ok).2).Perm jobs :=
    (List.filter_append_perm ok order).trans h
  refine ⟨hperm, fun j => hperm.count_eq j, ?_⟩
  intro j h1 h2
  simp only [aggregate, List.mem_filter] at h1 h2
  rw [h1.2] at h2
  simp at h2

/-- Witness for C8 at the spec's scenario: three jobs, job `A` fails and
jobs `B`, `C` succeed, completing in the order `B, C, A`: exactly one
failed and two succeeded, and the two sets partition the input. -/
theorem scrape_partition_witness :
    (["B", "C", "A"] : List String).Perm ["A", "B", "C"] ∧
    ((aggregate ["B", "C", "A"] fun j => !(j == "A")).1 ++
      (aggregate ["B", "C", "A"] fun j => !(j == "A")).2).Perm ["A", "B", "C"] ∧
    (aggregate ["B", "C", "A"] fun j => !(j == "A")).1 = ["B", "C"] ∧
    (aggregate ["B", "C", "A"] fun j => !(j == "A")).2 = ["A"] :=
  ⟨by decide,
   (scrape_partition ["A", "B", "C"] ["B", "C", "A"] (fun j => !(j == "A"))
      (by decide)).1,
   by decide, by decide⟩
/-- C1: if the destination file already exists and is non-empty (size
`n + 1`), `downloadGDrive` returns the skipped outcome immediately, issues
zero network requests (`calls = 0` — no network call for any provider
behaviour) and leaves the file unchanged. -/
theorem downloadGDrive_skip (provider : Provider) (originalUrl : String) (n : Nat) :
    downloadGDrive provider originalUrl (some (n + 1)) =
      (.skipped, ⟨0, 0, some (n + 1)⟩) := by
  unfold downloadGDrive
  simp

/-- C2 counterexample: the claim is false as stated.  Against a provider
that always answers with the quota-exceeded interstitial, the job does NOT
terminate after a single attempt: the quota error is caught and retried
like any other error, and all `MAX_RETRIES = 3` attempts (one request each)
are consumed before the quota failure is thrown. -/
theorem downloadFile_quota_counterexample :
    downloadFile (fun _ _ => qResp) 5
        "https://drive.google.com/uc?export=download&id=FILEID99" none
      = (.failure "Google Drive quota exceeded", ⟨3, 3, none⟩) ∧
    (downloadFile (fun _ _ => qResp) 5
        "https://drive.google.com/uc?export=download&id=FILEID99" none).2.attempts ≠ 1 := by
  exact ⟨by decide, by decide⟩

/-- One hop of the part_002 loop against the always-quota provider: the
quota marker makes the attempt fail with the quota error. -/
lemma innerLoop_quota (url : String) (fuel : Nat) (st : DlState) :
    innerLoop (fun _ _ => qResp) (fuel + 1) url st =
      (.failure "Google Drive quota exceeded", { st with calls := st.calls + 1 }) := by
  have hc : (decide (qResp.status = 200) && substrOf "text/html" qResp.contentType)
      = true := by decide
  have hm : confirmMatchAmpId qResp.body = none := by decide
  have hq : substrOf "quota exceeded" qResp.body = true := by decide
  simp [innerLoop, hc, hm, hq]

/-- C2 amended: a provider that persistently reports quota exhaustion makes
the job fail with the quota error only after all `MAX_RETRIES = 3` attempts
are consumed — the quota failure is retried like any transient error, not
treated as permanent. -/
theorem downloadFile_quota_amended (provider : Provider) (url : String) (fuel : Nat)
    (h : ∀ i u, provider i u = qResp) :
    downloadFile provider (fuel + 1) url none =
      (.failure "Google Drive quota exceeded", ⟨3, 3, none⟩) := by
  have hp : provider = fun _ _ => qResp := funext fun i => funext fun u => h i u
  subst hp
  simp [downloadFile, attemptLoop, innerLoop_quota]

/-- Witness for C2's amended theorem at the constant quota provider. -/
theorem downloadFile_quota_amended_witness :
    downloadFile (fun _ _ => qResp) 1
        "https://drive.google.com/uc?export=download&id=F" none
      = (.failure "Google Drive quota exceeded", ⟨3, 3, none⟩) :=
  downloadFile_quota_amended (fun _ _ => qResp)
    "https://drive.google.com/uc?export=download&id=F" 0 (fun _ _ => rfl)

/-- C3: the code has no hop bound.  Against a provider that always answers
with an interstitial referencing itself (a `confirm=` token on every
response), the `while (true)` confirmation loop of a single attempt never
terminates: after ANY number `n` of hops it is still looping (`spin`),
having issued one request per hop.  In particular it does not stop at the
spec's example bound of 3. -/
theorem innerLoop_conf_spin (n : Nat) (url : String) (st : DlState) :
    innerLoop (fun _ _ => confResp) n url st =
      (.spin, { st with calls := st.calls + n }) := by
  induction n generalizing url st with
  | zero => simp [innerLoop]
  | succ k ih =>
    have hc : (decide (confResp.status = 200) && substrOf "text/html" confResp.contentType)
        = true := by decide
    have hm : confirmMatchAmpId confResp.body = some "t" := by decide
    simp [innerLoop, hc, hm, ih]
    omega

/-- C5: the code can leave a non-empty partial file behind.  Against a
provider whose payload stream errors after delivering 100 bytes, every
attempt rewrites the 100-byte partial file and fails; after 3 attempts the
job exits `Failed` with the 100-byte file still on disk (no catch deletes
it) — and a subsequent run of the same job then wrongly skips it as
complete without any network call. -/
theorem downloadGDrive_partial_file :
    downloadGDrive (fun _ _ => badResp) "url" none =
      (.failure "Failed to download after 3 attempts: stream error",
        ⟨3, 3, some 100⟩) ∧
    downloadGDrive (fun _ _ => badResp) "url" (some 100) =
      (.skipped, ⟨0, 0, some 100⟩) := by
  exact ⟨by decide, by decide⟩
/-- C7: on a job whose canonical URL carries the id, an interstitial
response (status 200, content type containing `text/html`) whose body
yields a `confirm=` token makes the next request go to the SAME canonical
URL with the `confirm` parameter appended — the provider file identifier of
the next URL is the same as that of the original URL, never a different
one. -/
theorem confirm_hop_same_id (provider : Provider) (fuel : Nat) (st : DlState)
    (id tok : List Char) (hne : id ≠ []) (hid : ∀ c ∈ id, isIdChar c = true)
    (htok : ∀ c ∈ tok, isTokChar c = true)
    (h200 : (provider st.calls
        ("https://drive.google.com/uc?export=download&id=" ++ id.asString)).status = 200)
    (hct : substrOf "text/html" (provider st.calls
        ("https://drive.google.com/uc?export=download&id=" ++ id.asString)).contentType
        = true)
    (hcm : confirmMatchAmpId (provider st.calls
        ("https://drive.google.com/uc?export=download&id=" ++ id.asString)).body
        = some tok.asString) :
    innerLoop provider (fuel + 1)
        ("https://drive.google.com/uc?export=download&id=" ++ id.asString) st
      = innerLoop provider fuel
          ("https://drive.google.com/uc?export=download&confirm=" ++ tok.asString
            ++ "&id=" ++ id.asString) { st with calls := st.calls + 1 } ∧
    extractId ("https://drive.google.com/uc?export=download&confirm=" ++ tok.asString
        ++ "&id=" ++ id.asString) = some id.asString ∧
    extractId ("https://drive.google.com/uc?export=download&id=" ++ id.asString)
      = some id.asString := by
  refine ⟨?_, ?_, ?_⟩
  · simp only [innerLoop, h200, hct, hcm]
    rw [replaceFirst_confirm_url]
    simp
  · unfold extractId
    rw [show ("https://drive.google.com/uc?export=download&confirm=" ++ tok.asString
        ++ "&id=" ++ id.asString).toList
        = "https://drive.google.com/uc?export=download&confirm=".toList
          ++ (tok ++ ("&id=".toList ++ id)) by
      rw [toList_append, toList_append, toList_append, toList_asString, toList_asString]
      simp [List.append_assoc]]
    rw [extractId_confirm tok id hne hid htok]
    rfl
  · unfold extractId
    rw [show ("https://drive.google.com/uc?export=download&id=" ++ id.asString).toList
        = "https://drive.google.com/uc?export=download&id=".toList ++ id by
      rw [toList_append, toList_asString]]
    rw [extractId_canon id hne hid]
    rfl

/-- Witness for C7 at the self-referencing interstitial provider, id `F99`
and token `t`. -/
theorem confirm_hop_same_id_witness :
    innerLoop (fun _ _ => confResp) 1
        "https://drive.google.com/uc?export=download&id=F99" ⟨0, 0, none⟩
      = innerLoop (fun _ _ => confResp) 0
          "https://drive.google.com/uc?export=download&confirm=t&id=F99" ⟨1, 0, none⟩ ∧
    extractId "https://drive.google.com/uc?export=download&confirm=t&id=F99"
      = some "F99" ∧
    extractId "https://drive.google.com/uc?export=download&id=F99" = some "F99" :=
  confirm_hop_same_id (fun _ _ => confResp) 0 ⟨0, 0, none⟩ "F99".toList "t".toList
    (by decide) (by decide) (by decide) (by decide) (by decide) (by decide)
